import Mathlib

/-!
Verification of the YOLO11-with-webpage upload service (src/flask/app.py)
against its natural-language specification.

The embedding models the three functions of the script — allowed_file,
process_video and upload_file — as pure Lean functions over an explicit
environment describing the external world (the detection model, the codec
library, the filesystem). Exceptions raised by Python code are modelled
with Except; the filesystem is a map from path strings to file data.
-/

/-- JSON values, the shape of every response body produced by jsonify. -/
inductive JVal where
  | str (s : String)
  | num (n : Nat)
  | list (items : List JVal)
  | obj (fields : List (String × JVal))

/-- Field lookup in a JSON object field list (first match wins). -/
def lookupField : List (String × JVal) → String → Option JVal
  | [], _ => none
  | (k, v) :: rest, key => if k = key then some v else lookupField rest key

/-- Field access on a JSON value: some value for a present object key, none otherwise. -/
def JVal.getField : JVal → String → Option JVal
  | .obj fields, key => lookupField fields key
  | _, _ => none

/-- Substring of s strictly after its last dot, the whole of s when s has no
dot. When s contains a dot this is exactly the Python expression
s.rsplit(dot, 1)[1] used at app.py line 48 and line 111, and it is also the
wording of the spec (the substring after the last dot). -/
def afterLastDot (s : String) : String :=
  String.mk ((s.data.reverse.takeWhile (fun c => c ≠ '.')).reverse)

/-- Python str.lower, character by character (the extensions involved are
ASCII, where Char.toLower matches Python). -/
def lowerString (s : String) : String :=
  String.mk (s.data.map Char.toLower)

/-- Python substring test dot-in-filename: for a single character this is
membership of the character in the string. -/
def hasDot (s : String) : Bool :=
  decide ('.' ∈ s.data)

/-- app.config ALLOWED_EXTENSIONS (app.py lines 15-18): a dict with exactly
the keys image and video; indexing with any other key raises KeyError,
modelled as none. -/
def ALLOWED_EXTENSIONS (mode : String) : Option (List String) :=
  if mode = "image" then some ["png", "jpg", "jpeg"]
  else if mode = "video" then some ["mp4", "mov", "avi", "webm"]
  else none

/-- allowed_file (app.py lines 47-48):
filename contains a dot AND the lowercased part after the last dot is in the
allow-list of the mode. The Python conjunction short-circuits: when the filename
has no dot the dict is never indexed, so no KeyError can arise there; when
the filename has a dot and the mode is not a dict key, KeyError propagates
(modelled as Except.error). -/
def allowed_file (filename mode : String) : Except Unit Bool :=
  if hasDot filename then
    match ALLOWED_EXTENSIONS mode with
    | some exts => .ok (decide (lowerString (afterLastDot filename) ∈ exts))
    | none => .error ()
  else
    .ok false

/-- The allow-lists exactly as the spec words them (section 4.1): images =
png jpg jpeg, videos = mp4 mov avi webm. Used on the specification side of
claim C1. -/
def claimAllowList (mode : String) : List String :=
  if mode = "image" then ["png", "jpg", "jpeg"] else ["mp4", "mov", "avi", "webm"]

/-!
Video pipeline: process_video (app.py lines 50-89).

The external world of one call — what cv2 and the model do — is a
VideoEnv: whether the capture stage raises, the fps / native width /
height the capture reports, whether opening the VideoWriter raises,
whether it creates the output file on disk, and for each decoded frame
whether the detect-plot-write step succeeds (false = an exception is
raised there, the realistic mid-video failure). The frame list ends where
cap.read returns ret = False.
-/

structure VideoEnv where
  capExc : Bool
  fps : Nat
  width : Nat
  height : Nat
  writerExc : Bool
  writerCreatesFile : Bool
  frameSteps : List Bool

/-- The stats dict returned by process_video on success (app.py 77-80). -/
structure VideoStats where
  resolution : String
  fps : Nat

/-- Outcome of process_video as seen by its caller: the stats dict, or the
Python literal False returned from the except branch (app.py line 83). -/
inductive VideoResult where
  | ok (s : VideoStats)
  | failed

/-- The while-True loop of process_video (app.py 68-75): read a frame,
stop at end of stream, otherwise run detection, plot and write; a raised
exception aborts the loop. -/
def frameLoop : List Bool → Except Unit Unit
  | [] => .ok ()
  | step :: rest => if step then frameLoop rest else .error ()

/-- The try block of process_video (app.py 53-80), with exceptions
propagating: read fps, width and height from the capture, clamp width and
height down to the nearest even value exactly as lines 63-64 do, open the
writer, run the frame loop, and return the stats dict of lines 77-80. -/
def process_video_body (env : VideoEnv) : Except Unit VideoStats :=
  if env.capExc then .error () else
  let fps := env.fps
  let width := if env.width % 2 = 0 then env.width else env.width - 1
  let height := if env.height % 2 = 0 then env.height else env.height - 1
  if env.writerExc then .error () else
  match frameLoop env.frameSteps with
  | .error e => .error e
  | .ok _ => .ok ⟨toString width ++ "x" ++ toString height, fps⟩

/-- process_video (app.py 50-89): the try body, with the except-Exception
handler of lines 81-83 turning every raised exception into the return
value False. The finally block only releases handles and touches no state
we model. -/
def process_video (env : VideoEnv) : VideoResult :=
  match process_video_body env with
  | .ok s => .ok s
  | .error _ => .failed

/-- Whether the call leaves an output file on disk: cv2.VideoWriter
creates the file when it opens successfully (line 66), before any frame is
processed, so the file exists from then on even if a later frame fails. -/
def process_video_creates_output (env : VideoEnv) : Bool :=
  !env.capExc && !env.writerExc && env.writerCreatesFile

example :
    process_video ⟨false, 30, 639, 480, false, true, []⟩ =
      .ok ⟨"638x480", 30⟩ := rfl
example :
    process_video ⟨false, 30, 640, 480, false, true, [true, false]⟩ = .failed := rfl

example : allowed_file "photo.GIF" "image" = .ok false := rfl
example : allowed_file "clip.MP4" "video" = .ok true := rfl
example : allowed_file "noext" "image" = .ok false := rfl
example : allowed_file "a.png" "gif" = .error () := rfl
example : allowed_file "noext" "gif" = .ok false := rfl

/-!
Request handler: upload_file (app.py lines 95-173).

The filesystem is a map from path strings to file data; the two writes the
handler can perform (file.save at line 114, cv2.imwrite at line 127 or the
VideoWriter inside process_video) and the one delete (os.remove at line
165) are explicit updates of that map.
-/

/-- Contents a path can hold: the uploaded bytes (abstracted as a Nat), the
annotated image written by cv2.imwrite, or the re-encoded video written by
cv2.VideoWriter. -/
inductive FileData where
  | uploaded (content : Nat)
  | annotatedImage
  | videoOutput

/-- The filesystem: a map from paths to file data. -/
def Disk : Type := String → Option FileData

/-- Writing a file at a path. -/
def store (d : Disk) (p : String) (v : FileData) : Disk :=
  fun q => if q = p then some v else d q

/-- The cleanup of app.py lines 164-165: os.remove guarded by
os.path.exists, which on the map model is simply removal. -/
def removeFile (d : Disk) (p : String) : Disk :=
  fun q => if q = p then none else d q

/-- The empty filesystem. -/
def emptyDisk : Disk := fun _ => none

/-- What the detection model and cv2 do during the image branch
(app.py 121-143): whether the model call raises, the class index of each
detected box, the index-to-name mapping, the inference time, the original
shape (height, width), and the boolean cv2.imwrite returns — which also
says whether the result file appeared on disk. -/
structure ImgEnv where
  detectExc : Bool
  boxes : List Nat
  names : Nat → String
  inference_time : Nat
  origW : Nat
  origH : Nat
  imwriteOk : Bool

/-- The external world of one upload_file call: the uuid4 value drawn at
line 112, whether file.save raises, the exception text rendered into the
details field by str(e) at line 166, and the image / video environments. -/
structure Env where
  uuid : String
  saveExc : Bool
  detailMsg : String
  img : ImgEnv
  vid : VideoEnv

/-- One incoming POST /upload request: whether the multipart form has a
file part, the filename of that part, the mode form field when present
(request.form.get with default image, line 102), and the uploaded bytes. -/
structure Request where
  hasFilePart : Bool
  filename : String
  modeField : Option String
  content : Nat

/-- The HTTP response: status code and jsonify-ed body. -/
structure Response where
  status : Nat
  body : JVal

/-- The effective mode: request.form.get of mode with default image. -/
def effMode (req : Request) : String :=
  req.modeField.getD "image"

/-- The stored filename uuid.ext built at lines 111-112. -/
def storedName (req : Request) (env : Env) : String :=
  env.uuid ++ "." ++ lowerString (afterLastDot req.filename)

/-- upload_path (line 113): os.path.join of static/uploads and the name. -/
def uploadPath (req : Request) (env : Env) : String :=
  "static/uploads/" ++ storedName req env

/-- result_path (lines 117-118): os.path.join of static/results and
result_ prefixed name. -/
def resultPath (req : Request) (env : Env) : String :=
  "static/results/result_" ++ storedName req env

/-- The set of unique detected class names of app.py lines 130-132: Python
builds a set by inserting results[0].names[int(box.cls)] for every box and
then lists it; as a set of names this is the deduplicated list of the
per-box names (Python fixes no order on the list either). -/
def detectedObjects (img : ImgEnv) : List String :=
  (img.boxes.map img.names).dedup

/-- upload_file (app.py 95-173), translated branch by branch:
missing file part and empty filename checks, validation by allowed_file
(whose KeyError reaches the outer handler), file.save, then the inner try
running the image branch or the video branch, the inner except of lines
160-166 (delete any partial result file, answer 500 with error and
details), and the outer except of lines 170-173 (500 Internal server
error). In the video branch a False return from process_video flows into
the subscript video_stats of resolution at line 153, which raises
TypeError on a bool; that exception lands in the inner except. Returns the
response and the final filesystem. -/
def upload_file (req : Request) (env : Env) (d0 : Disk) : Response × Disk :=
  if !req.hasFilePart then
    (⟨400, .obj [("error", .str "No file part")]⟩, d0)
  else if req.filename = "" then
    (⟨400, .obj [("error", .str "No selected file")]⟩, d0)
  else
    match allowed_file req.filename (effMode req) with
    | .error _ =>
      (⟨500, .obj [("error", .str "Internal server error")]⟩, d0)
    | .ok false =>
      (⟨400, .obj [("error", .str ("Invalid file type for " ++ effMode req ++ " mode"))]⟩, d0)
    | .ok true =>
      if env.saveExc then
        (⟨500, .obj [("error", .str "Internal server error")]⟩, d0)
      else
        let d1 := store d0 (uploadPath req env) (.uploaded req.content)
        if effMode req = "image" then
          if env.img.detectExc then
            (⟨500, .obj [("error", .str "Error processing file"), ("details", .str env.detailMsg)]⟩,
             removeFile d1 (resultPath req env))
          else
            let d2 := if env.img.imwriteOk then store d1 (resultPath req env) .annotatedImage else d1
            (⟨200, .obj [
               ("type", .str "image"),
               ("original", .str ("/static/uploads/" ++ storedName req env)),
               ("result", .str ("/static/results/result_" ++ storedName req env)),
               ("stats", .obj [
                 ("inference_time", .num env.img.inference_time),
                 ("resolution", .str (toString env.img.origW ++ "x" ++ toString env.img.origH)),
                 ("detected_objects", .list ((detectedObjects env.img).map JVal.str))])]⟩,
             d2)
        else
          let d2 := if process_video_creates_output env.vid
                    then store d1 (resultPath req env) .videoOutput else d1
          match process_video env.vid with
          | .failed =>
            (⟨500, .obj [("error", .str "Error processing file"), ("details", .str env.detailMsg)]⟩,
             removeFile d2 (resultPath req env))
          | .ok s =>
            (⟨200, .obj [
               ("type", .str "video"),
               ("original", .str ("/static/uploads/" ++ storedName req env)),
               ("result", .str ("/static/results/result_" ++ storedName req env)),
               ("stats", .obj [
                 ("resolution", .str s.resolution),
                 ("fps", .num s.fps),
                 ("detected_objects", .list [])])]⟩,
             d2)

/-- The request reached the processing stage: the form has a file part, the
filename is nonempty, allowed_file accepted it (returning True, raising no
KeyError), and file.save did not raise. -/
def reachesProcessing (req : Request) (env : Env) : Prop :=
  req.hasFilePart = true ∧ req.filename ≠ "" ∧
  allowed_file req.filename (effMode req) = .ok true ∧ env.saveExc = false

/-- Processing failed after reaching the processing stage: in image mode
the detection call raised, in video mode process_video returned False
(covering codec-open failures and mid-video failures alike). -/
def processingFails (req : Request) (env : Env) : Prop :=
  (effMode req = "image" ∧ env.img.detectExc = true) ∨
  (effMode req ≠ "image" ∧ process_video env.vid = .failed)

/-!
Helper lemmas: the filesystem map, and the fact that the upload path and
the result path of one request are always distinct strings (they start
with different folder prefixes).
-/

theorem store_self (d : Disk) (p : String) (v : FileData) : store d p v p = some v := by
  simp [store]

theorem store_other (d : Disk) (p q : String) (v : FileData) (h : q ≠ p) :
    store d p v q = d q := by
  simp [store, h]

theorem removeFile_self (d : Disk) (p : String) : removeFile d p p = none := by
  simp [removeFile]

theorem removeFile_other (d : Disk) (p q : String) (h : q ≠ p) :
    removeFile d p q = d q := by
  simp [removeFile, h]

theorem string_ne_of_data_get (s t : String) (i : Nat)
    (h : s.data[i]? ≠ t.data[i]?) : s ≠ t := by
  intro he
  exact h (by rw [he])

theorem uploadFolder_ne_resultFolder (s t : String) :
    ("static/uploads/" ++ s) ≠ ("static/results/result_" ++ t) := by
  apply string_ne_of_data_get _ _ 7
  rw [String.data_append, String.data_append]
  rw [List.getElem?_append_left (by decide), List.getElem?_append_left (by decide)]
  decide

theorem uploadPath_ne_resultPath (req : Request) (env : Env) :
    uploadPath req env ≠ resultPath req env :=
  uploadFolder_ne_resultFolder _ _

/-!
Claim theorems.
-/

/-- Claim C1: for every filename and every mode carrying one of the two
fixed allow-lists, the file validator accepts the filename if and only if
the filename contains a dot and the substring after its last dot,
lowercased, is a member of the allow-list of that mode (image: png jpg jpeg;
video: mp4 mov avi webm); filenames with no dot are rejected, and the
check is case-insensitive because the extension is lowercased before the
membership test. -/
theorem C1_validator_characterisation (filename mode : String)
    (h : mode = "image" ∨ mode = "video") :
    allowed_file filename mode = .ok true ↔
      (hasDot filename = true ∧
       lowerString (afterLastDot filename) ∈ claimAllowList mode) := by
  have hA : ALLOWED_EXTENSIONS mode = some (claimAllowList mode) := by
    rcases h with h | h <;> subst h <;> rfl
  unfold allowed_file
  rw [hA]
  by_cases hd : hasDot filename = true
  · simp [hd]
  · simp [hd]

/-- Witness for C1 at the concrete inputs of the spec: clip.MP4 in video
mode satisfies the characterisation. -/
theorem C1_witness :
    (("video" : String) = "image" ∨ ("video" : String) = "video") ∧
    (allowed_file "clip.MP4" "video" = .ok true ↔
      (hasDot "clip.MP4" = true ∧
       lowerString (afterLastDot "clip.MP4") ∈ claimAllowList "video")) :=
  ⟨Or.inr rfl, C1_validator_characterisation "clip.MP4" "video" (Or.inr rfl)⟩

/-- Claim C4: whenever process_video succeeds, the resolution in its stats
is built from the native width and height each clamped down by exactly one
pixel when odd and left unchanged when even, never padded up. -/
theorem C4_even_clamped_resolution (env : VideoEnv) (s : VideoStats)
    (h : process_video env = .ok s) :
    ∃ w k : Nat,
      s.resolution = toString w ++ "x" ++ toString k ∧
      (env.width % 2 = 0 → w = env.width) ∧
      (env.width % 2 ≠ 0 → w = env.width - 1) ∧ w ≤ env.width ∧
      (env.height % 2 = 0 → k = env.height) ∧
      (env.height % 2 ≠ 0 → k = env.height - 1) ∧ k ≤ env.height := by
  have hs : s.resolution =
      toString (if env.width % 2 = 0 then env.width else env.width - 1) ++ "x" ++
      toString (if env.height % 2 = 0 then env.height else env.height - 1) := by
    unfold process_video process_video_body at h
    by_cases hc : env.capExc = true
    · simp [hc] at h
    · by_cases hw : env.writerExc = true
      · simp [hc, hw] at h
      · cases hf : frameLoop env.frameSteps with
        | error e => simp [hc, hw, hf] at h
        | ok u =>
          simp [hc, hw, hf] at h
          rw [← h]
  refine ⟨_, _, hs, ?_, ?_, ?_, ?_, ?_, ?_⟩
  · intro h0; rw [if_pos h0]
  · intro h0; rw [if_neg h0]
  · by_cases h0 : env.width % 2 = 0
    · rw [if_pos h0]
    · rw [if_neg h0]; exact Nat.sub_le _ _
  · intro h0; rw [if_pos h0]
  · intro h0; rw [if_neg h0]
  · by_cases h0 : env.height % 2 = 0
    · rw [if_pos h0]
    · rw [if_neg h0]; exact Nat.sub_le _ _

/-- A 639 by 480 source, successfully processed with no frames failing. -/
def c4env : VideoEnv := ⟨false, 30, 639, 480, false, true, []⟩

/-- Witness for C4: the 639 by 480 source of the spec example yields
resolution 638x480. -/
theorem C4_witness :
    process_video c4env = .ok ⟨"638x480", 30⟩ ∧
    (∃ w k : Nat,
      (VideoStats.mk "638x480" 30).resolution = toString w ++ "x" ++ toString k ∧
      (c4env.width % 2 = 0 → w = c4env.width) ∧
      (c4env.width % 2 ≠ 0 → w = c4env.width - 1) ∧ w ≤ c4env.width ∧
      (c4env.height % 2 = 0 → k = c4env.height) ∧
      (c4env.height % 2 ≠ 0 → k = c4env.height - 1) ∧ k ≤ c4env.height) :=
  ⟨rfl, C4_even_clamped_resolution c4env ⟨"638x480", 30⟩ rfl⟩

/-- Claim C8: process_video never propagates an exception to its caller:
its only outcomes are the boolean sentinel False or a stats record, and
whenever its try body raises, the outcome is the sentinel. -/
theorem C8_sentinel_or_stats (env : VideoEnv) :
    (process_video env = .failed ∨ ∃ s : VideoStats, process_video env = .ok s) ∧
    ((∃ e : Unit, process_video_body env = .error e) → process_video env = .failed) := by
  constructor
  · unfold process_video
    cases process_video_body env with
    | ok s => exact Or.inr ⟨s, rfl⟩
    | error e => exact Or.inl rfl
  · rintro ⟨e, he⟩
    unfold process_video
    rw [he]

/-- An environment whose first frame fails mid-video. -/
def c8env : VideoEnv := ⟨false, 30, 640, 480, false, true, [false]⟩

/-- Witness for C8: with a failing first frame the body raises and
process_video returns the sentinel. -/
theorem C8_witness :
    (∃ e : Unit, process_video_body c8env = .error e) ∧ process_video c8env = .failed :=
  ⟨⟨(), rfl⟩, (C8_sentinel_or_stats c8env).2 ⟨(), rfl⟩⟩

/-- Claim C7: with a file part present and an empty filename the handler
answers 400 with exactly the body error No selected file. -/
theorem C7_empty_filename_exact_body (req : Request) (env : Env) (d0 : Disk)
    (h1 : req.hasFilePart = true) (h2 : req.filename = "") :
    (upload_file req env d0).1 = ⟨400, .obj [("error", .str "No selected file")]⟩ := by
  simp [upload_file, h1, h2]

/-- An environment for requests that never reach processing. -/
def idleEnv : Env :=
  ⟨"u0", false, "m", ⟨false, [], fun _ => "", 0, 0, 0, true⟩, ⟨false, 0, 0, 0, false, false, []⟩⟩

/-- Witness for C7 at the concrete empty-filename request. -/
theorem C7_witness :
    (Request.mk true "" (some "image") 0).hasFilePart = true ∧
    (Request.mk true "" (some "image") 0).filename = "" ∧
    (upload_file (Request.mk true "" (some "image") 0) idleEnv emptyDisk).1 =
      ⟨400, .obj [("error", .str "No selected file")]⟩ :=
  ⟨rfl, rfl, C7_empty_filename_exact_body _ idleEnv emptyDisk rfl rfl⟩

/-- Claim C2: every request that reaches processing and then fails — the
detection call raising in image mode, or process_video returning the False
sentinel in video mode (codec-open failure or mid-video failure) — is
answered 500, the body carries an error field, and no result file remains
on disk. In the video branch the False sentinel flows into the subscript
of resolution at line 153, whose TypeError reaches the inner except, which
deletes the partial result file before responding. -/
theorem C2_processing_failure_500_cleanup (req : Request) (env : Env) (d0 : Disk)
    (hr : reachesProcessing req env) (hf : processingFails req env) :
    (upload_file req env d0).1.status = 500 ∧
    ((upload_file req env d0).1.body.getField "error").isSome = true ∧
    (upload_file req env d0).2 (resultPath req env) = none := by
  obtain ⟨h1, h2, h3, h4⟩ := hr
  rcases hf with ⟨hm, hd⟩ | ⟨hm, hv⟩
  · rw [hm] at h3
    refine ⟨?_, ?_, ?_⟩ <;>
      simp [upload_file, h1, h2, h3, h4, hm, hd, removeFile, JVal.getField, lookupField]
  · refine ⟨?_, ?_, ?_⟩ <;>
      simp [upload_file, h1, h2, h3, h4, hm, hv, removeFile, JVal.getField, lookupField]

/-- A video request whose second frame fails mid-video. -/
def c2req : Request := ⟨true, "clip.mp4", some "video", 3⟩

/-- An environment where the writer opened (a partial file exists) and the
second frame raises. -/
def c2env : Env :=
  ⟨"u2", false, "boom", ⟨false, [], fun _ => "", 0, 0, 0, true⟩,
   ⟨false, 30, 640, 480, false, true, [true, false]⟩⟩

/-- Witness for C2: the mid-video failure gets a 500 with an error field
and leaves no result file. -/
theorem C2_witness :
    reachesProcessing c2req c2env ∧ processingFails c2req c2env ∧
    ((upload_file c2req c2env emptyDisk).1.status = 500 ∧
     ((upload_file c2req c2env emptyDisk).1.body.getField "error").isSome = true ∧
     (upload_file c2req c2env emptyDisk).2 (resultPath c2req c2env) = none) :=
  ⟨⟨rfl, by decide, rfl, rfl⟩, Or.inr ⟨by decide, rfl⟩,
   C2_processing_failure_500_cleanup c2req c2env emptyDisk
     ⟨rfl, by decide, rfl, rfl⟩ (Or.inr ⟨by decide, rfl⟩)⟩

/-- A request whose mode names no allow-list but whose filename has a dot. -/
def c3req : Request := ⟨true, "a.png", some "gif", 0⟩

/-- Counterexample to claim C3 as stated: with mode gif (no recognized
allow-list) and filename a.png the dict lookup in allowed_file raises
KeyError, the outer handler catches it, and the response is 500, not the
400 the claim promises for every validation failure. -/
theorem C3_counterexample :
    (upload_file c3req idleEnv emptyDisk).1.status = 500 ∧
    ¬ (upload_file c3req idleEnv emptyDisk).1.status = 400 := by
  exact ⟨rfl, by decide⟩

/-- Claim C3 amended: when the validator itself rejects — the filename has
no dot (any mode), or the extension is outside the
allow-list of a recognized mode — the handler answers 400 with the exact invalid-file-type
error body and never a 500; a mode with no allow-list together with a
dotted filename instead raises KeyError and is answered 500. -/
theorem C3_amended_validation_rejection_400 (req : Request) (env : Env) (d0 : Disk)
    (h1 : req.hasFilePart = true) (h2 : req.filename ≠ "")
    (h3 : allowed_file req.filename (effMode req) = .ok false) :
    (upload_file req env d0).1 =
      ⟨400, .obj [("error", .str ("Invalid file type for " ++ effMode req ++ " mode"))]⟩ := by
  simp only [upload_file, h1, if_neg h2, h3]
  simp only [Bool.not_true, Bool.false_eq_true, if_false]

/-- Witness for the amended C3: photo.GIF in image mode is rejected 400. -/
theorem C3_amended_witness :
    (Request.mk true "photo.GIF" (some "image") 0).hasFilePart = true ∧
    (Request.mk true "photo.GIF" (some "image") 0).filename ≠ "" ∧
    allowed_file "photo.GIF" (effMode (Request.mk true "photo.GIF" (some "image") 0)) = .ok false ∧
    (upload_file (Request.mk true "photo.GIF" (some "image") 0) idleEnv emptyDisk).1 =
      ⟨400, .obj [("error",
        .str ("Invalid file type for " ++ effMode (Request.mk true "photo.GIF" (some "image") 0) ++ " mode"))]⟩ :=
  ⟨rfl, by decide, rfl,
   C3_amended_validation_rejection_400 _ idleEnv emptyDisk rfl (by decide) rfl⟩

/-- Claim C5: for every image-mode upload that reaches processing with a
successful detection, the detected_objects stats field is the set of
unique class names across all detected boxes: it has no duplicates, its
length is at most the number of boxes, and a name is in it exactly when
some box carries that class name. -/
theorem C5_image_detected_objects_unique (req : Request) (env : Env) (d0 : Disk)
    (hr : reachesProcessing req env) (hm : effMode req = "image")
    (hd : env.img.detectExc = false) :
    ∃ objs : List String,
      ((upload_file req env d0).1.body.getField "stats").bind
        (fun j => j.getField "detected_objects") = some (.list (objs.map JVal.str)) ∧
      objs.Nodup ∧
      objs.length ≤ env.img.boxes.length ∧
      (∀ n : String, n ∈ objs ↔ ∃ b ∈ env.img.boxes, env.img.names b = n) := by
  obtain ⟨h1, h2, h3, h4⟩ := hr
  rw [hm] at h3
  refine ⟨detectedObjects env.img, ?_, ?_, ?_, ?_⟩
  · simp [upload_file, h1, h2, h3, h4, hm, hd, JVal.getField, lookupField]
  · exact List.nodup_dedup _
  · calc (detectedObjects env.img).length
        ≤ (env.img.boxes.map env.img.names).length := (List.dedup_sublist _).length_le
      _ = env.img.boxes.length := List.length_map _ _
  · intro n
    unfold detectedObjects
    rw [List.mem_dedup, List.mem_map]

/-- An image request detecting three boxes over two classes. -/
def c5req : Request := ⟨true, "pets.jpg", some "image", 9⟩

/-- Detection finds boxes of classes 0, 1, 0 named cat, dog, cat. -/
def c5env : Env :=
  ⟨"u5", false, "m", ⟨false, [0, 1, 0], fun n => if n = 0 then "cat" else "dog", 4, 640, 480, true⟩,
   ⟨false, 0, 0, 0, false, false, []⟩⟩

/-- Witness for C5 at the concrete three-box two-class detection. -/
theorem C5_witness :
    reachesProcessing c5req c5env ∧ effMode c5req = "image" ∧ c5env.img.detectExc = false ∧
    (∃ objs : List String,
      ((upload_file c5req c5env emptyDisk).1.body.getField "stats").bind
        (fun j => j.getField "detected_objects") = some (.list (objs.map JVal.str)) ∧
      objs.Nodup ∧
      objs.length ≤ c5env.img.boxes.length ∧
      (∀ n : String, n ∈ objs ↔ ∃ b ∈ c5env.img.boxes, c5env.img.names b = n)) :=
  ⟨⟨rfl, by decide, rfl, rfl⟩, rfl, rfl,
   C5_image_detected_objects_unique c5req c5env emptyDisk ⟨rfl, by decide, rfl, rfl⟩ rfl rfl⟩

/-- Claim C6: every video-mode upload that succeeds answers 200 with a
detected_objects stats field that is the empty list, whatever the frames
contained. -/
theorem C6_video_detected_objects_empty (req : Request) (env : Env) (d0 : Disk)
    (s : VideoStats)
    (hr : reachesProcessing req env) (hm : effMode req ≠ "image")
    (hv : process_video env.vid = .ok s) :
    (upload_file req env d0).1.status = 200 ∧
    ((upload_file req env d0).1.body.getField "stats").bind
      (fun j => j.getField "detected_objects") = some (.list []) := by
  obtain ⟨h1, h2, h3, h4⟩ := hr
  refine ⟨?_, ?_⟩ <;>
    simp [upload_file, h1, h2, h3, h4, hm, hv, JVal.getField, lookupField]

/-- A successful video request: every frame processes. -/
def c6req : Request := ⟨true, "clip.webm", some "video", 5⟩

/-- An environment where the whole two-frame video re-encodes fine. -/
def c6env : Env :=
  ⟨"u6", false, "m", ⟨false, [], fun _ => "", 0, 0, 0, true⟩,
   ⟨false, 24, 640, 360, false, true, [true, true]⟩⟩

/-- Witness for C6 at the concrete successful video request. -/
theorem C6_witness :
    reachesProcessing c6req c6env ∧ effMode c6req ≠ "image" ∧
    process_video c6env.vid = .ok ⟨"640x360", 24⟩ ∧
    ((upload_file c6req c6env emptyDisk).1.status = 200 ∧
     ((upload_file c6req c6env emptyDisk).1.body.getField "stats").bind
       (fun j => j.getField "detected_objects") = some (.list [])) :=
  ⟨⟨rfl, by decide, rfl, rfl⟩, by decide, rfl,
   C6_video_detected_objects_empty c6req c6env emptyDisk ⟨"640x360", 24⟩
     ⟨rfl, by decide, rfl, rfl⟩ (by decide) rfl⟩

/-- Claim C9: for every request that reaches processing, the stored upload
file — saved under the fresh uuid plus the original extension — still
holds the uploaded bytes when the handler returns, on the success path and
on every failure path alike: the handler never mutates it, and the cleanup
of lines 163-165 deletes only the result path. -/
theorem C9_stored_upload_intact (req : Request) (env : Env) (d0 : Disk)
    (hr : reachesProcessing req env) :
    (upload_file req env d0).2 (uploadPath req env) = some (.uploaded req.content) := by
  obtain ⟨h1, h2, h3, h4⟩ := hr
  have hne : uploadPath req env ≠ resultPath req env := uploadPath_ne_resultPath req env
  by_cases hm : effMode req = "image"
  · rw [hm] at h3
    by_cases hd : env.img.detectExc = true
    · simp only [upload_file, h1, h2, h3, h4, hm, hd]
      simp [h2]
      rw [removeFile_other _ _ _ hne, store_self]
    · by_cases hw : env.img.imwriteOk = true
      · simp only [upload_file, h1, h2, h3, h4, hm, hd]
        simp [h2, hd, hw]
        rw [store_other _ _ _ _ hne, store_self]
      · simp only [upload_file, h1, h2, h3, h4, hm, hd]
        simp [h2, hd, hw]
        rw [store_self]
  · cases hv : process_video env.vid with
    | failed =>
      by_cases hc : process_video_creates_output env.vid = true
      · simp [upload_file, h1, h2, h3, h4, hm, hv, hc]
        rw [removeFile_other _ _ _ hne, store_other _ _ _ _ hne, store_self]
      · simp [upload_file, h1, h2, h3, h4, hm, hv, hc]
        rw [removeFile_other _ _ _ hne, store_self]
    | ok s =>
      by_cases hc : process_video_creates_output env.vid = true
      · simp [upload_file, h1, h2, h3, h4, hm, hv, hc]
        rw [store_other _ _ _ _ hne, store_self]
      · simp [upload_file, h1, h2, h3, h4, hm, hv, hc]
        rw [store_self]

/-- Witness for C9: after the successful image request the upload file
still holds the uploaded bytes. -/
theorem C9_witness :
    reachesProcessing c5req c5env ∧
    (upload_file c5req c5env emptyDisk).2 (uploadPath c5req c5env) =
      some (.uploaded c5req.content) :=
  ⟨⟨rfl, by decide, rfl, rfl⟩,
   C9_stored_upload_intact c5req c5env emptyDisk ⟨rfl, by decide, rfl, rfl⟩⟩

/-- Claim C10: the boolean cv2.imwrite returns is discarded, so an
image-mode request whose result write failed is still answered 200 with a
result path in the body, while the result path on disk is exactly what it
was before the request: no result file was written. -/
theorem C10_imwrite_status_unchecked (req : Request) (env : Env) (d0 : Disk)
    (hr : reachesProcessing req env) (hm : effMode req = "image")
    (hd : env.img.detectExc = false) (hw : env.img.imwriteOk = false) :
    (upload_file req env d0).1.status = 200 ∧
    ((upload_file req env d0).1.body.getField "result").isSome = true ∧
    (upload_file req env d0).2 (resultPath req env) = d0 (resultPath req env) := by
  obtain ⟨h1, h2, h3, h4⟩ := hr
  rw [hm] at h3
  refine ⟨?_, ?_, ?_⟩
  · simp [upload_file, h1, h2, h3, h4, hm, hd, hw]
  · simp [upload_file, h1, h2, h3, h4, hm, hd, hw, JVal.getField, lookupField]
  · simp [upload_file, h1, h2, h3, h4, hm, hd, hw]
    rw [store_other _ _ _ _ (uploadPath_ne_resultPath req env).symm]

/-- An image request whose annotated-result write fails. -/
def c10env : Env :=
  ⟨"uA", false, "m", ⟨false, [2], fun _ => "bird", 6, 320, 240, false⟩,
   ⟨false, 0, 0, 0, false, false, []⟩⟩

/-- Witness for C10: the failed write still gets a 200 with a result path,
and no result file exists on the empty starting disk. -/
theorem C10_witness :
    reachesProcessing c5req c10env ∧ effMode c5req = "image" ∧
    c10env.img.detectExc = false ∧ c10env.img.imwriteOk = false ∧
    ((upload_file c5req c10env emptyDisk).1.status = 200 ∧
     ((upload_file c5req c10env emptyDisk).1.body.getField "result").isSome = true ∧
     (upload_file c5req c10env emptyDisk).2 (resultPath c5req c10env) =
       emptyDisk (resultPath c5req c10env)) :=
  ⟨⟨rfl, by decide, rfl, rfl⟩, rfl, rfl, rfl,
   C10_imwrite_status_unchecked c5req c10env emptyDisk ⟨rfl, by decide, rfl, rfl⟩ rfl rfl rfl⟩
